import Mathlib

/-!
Verification of the calorie-estimation and monthly-aggregation core of
`treadmill_app.py` (My-Workout-App). The Python computations are embedded
shallowly: numeric values become exact rationals (`ℚ`), calendar dates become
proleptic day ordinals (`ℤ`, with Python's `date.weekday()` convention
Monday = 0, i.e. the epoch is chosen on a Monday so `weekday d = d % 7`),
and the Streamlit form/page code paths become total functions returning
`Option` where the page aborts with a validation error.
-/

namespace WorkoutApp

/-- `TARGET_BMI` constant (treadmill_app.py line 23). -/
def TARGET_BMI : ℚ := 24.9

/-- The three choices of the "Intensity" selectbox (line 266). -/
inductive Intensity
  | low
  | moderate
  | high
deriving DecidableEq, Repr

/-- The keys of `ACTIVITY_ICONS` (lines 31–38): the activities offered by the
log form's "Activity Type" selectbox. -/
def activityOptions : List String :=
  ["Walk", "Rollerblade", "Stationary Bike", "Basketball (21)", "Spikeball", "Soccer"]

/-- MET resolution of the log form (lines 286–296): `MET = 3.5` is the
default, reassigned by the `elif` chain on the activity string; the
intensity-gated activities index a three-entry dict with the selected
intensity. Any activity string matching none of the five named branches keeps
the default `3.5`. -/
def MET (activity : String) (intensity : Intensity) : ℚ :=
  if activity = "Rollerblade" then 9.0
  else if activity = "Stationary Bike" then 7.5
  else if activity = "Basketball (21)" then
    match intensity with
    | .low => 4.5
    | .moderate => 6.5
    | .high => 8.0
  else if activity = "Spikeball" then
    match intensity with
    | .low => 5.0
    | .moderate => 6.5
    | .high => 8.0
  else if activity = "Soccer" then
    match intensity with
    | .low => 7.0
    | .moderate => 10.0
    | .high => 12.0
  else 3.5

/-- Python's `round(x, 2)` as used on exact values. -/
def round2 (x : ℚ) : ℚ := (round (x * 100) : ℤ) / 100

/-- Python's `round(x, 1)` (pandas `.round(1)`). -/
def round1 (x : ℚ) : ℚ := (round (x * 10) : ℤ) / 10

/-- The calorie computation of the log form (lines 283–304, 313):
`w_kg = w * 0.453592`, `time_hr = t / 60`, `cal_flat = MET * w_kg * time_hr`,
`cal_climb` added only when `vert` is truthy (nonzero), and the stored value
is `round(kcal, 2)`. -/
def logCalories (activity : String) (intensity : Intensity) (w t vert : ℚ) : ℚ :=
  let w_kg := w * 0.453592
  let time_hr := t / 60
  let cal_flat := MET activity intensity * w_kg * time_hr
  let cal_climb := if vert ≠ 0 then (w_kg * (vert * 0.3048) * 9.81) / 0.25 / 4184 else 0
  round2 (cal_flat + cal_climb)

/-- One row of the `workouts` sheet, the dict built at lines 307–316. The
`date` field is the day ordinal of the logged calendar date. -/
structure SessionRow where
  date : ℤ
  weight_lbs : ℚ
  time_min : ℚ
  distance_km : ℚ
  vertical_feet : ℚ
  calories : ℚ
  activity : String
  user : String
deriving DecidableEq, Repr

/-- The submit branch of the log form (lines 270–319). `today` is
`datetime.today().date()` at logging time. `w`, `t`, `d`, `vert` are the
`parse_float` results of the four text inputs (`none` = unparseable or, for
the optional ones, absent; the source then substitutes `0` for absent
distance/vertical). Returns the row handed to `save_data`, or `none` when the
form errors out (future date, or weight/time not parseable). -/
def logSubmit (today date : ℤ) (activity : String) (intensity : Intensity)
    (w t d vert : Option ℚ) (unitMiles : Bool) (user : String) : Option SessionRow :=
  if today < date then none
  else
    match w, t with
    | some w, some t =>
      let d := d.getD 0
      let vert := vert.getD 0
      let dist_km := if unitMiles then d * 1.60934 else d
      some
        { date := date
          weight_lbs := w
          time_min := t
          distance_km := dist_km
          vertical_feet := vert
          calories := logCalories activity intensity w t vert
          activity := activity
          user := user }
    | _, _ => none

/-- The structured content of the HTML snippet returned by the progress
page's delta helpers: `empty` for the bare `""`, `flat` for the gray `→ 0`,
and `up`/`down` carrying the (signed) delta whose magnitude and arrow the
snippet displays. -/
inductive DeltaResult
  | empty
  | flat
  | up (delta : ℚ)
  | down (delta : ℚ)
deriving DecidableEq, Repr

/-- `raw_delta` (lines 521–529): empty string when `previous == 0`, else
branches on the sign of `delta = current - previous`. -/
def raw_delta (current previous : ℚ) : DeltaResult :=
  if previous = 0 then .empty
  else
    let delta := current - previous
    if delta = 0 then .flat
    else if delta > 0 then .up delta
    else .down delta

/-- `percent_delta` (lines 531–539): empty string when `previous == 0`, else
branches on the sign of `delta = ((current - previous) / previous) * 100`. -/
def percent_delta (current previous : ℚ) : DeltaResult :=
  if previous = 0 then .empty
  else
    let delta := (current - previous) / previous * 100
    if delta = 0 then .flat
    else if delta > 0 then .up delta
    else .down delta

/-- The month filter `df[df["date"].dt.strftime("%Y-%m") == month]`
(lines 354, 517): a date's `"%Y-%m"` string equals the target month's exactly
when its ordinal lies in the month's ordinal range `[first, last]`. -/
def monthFilter (first last : ℤ) (rows : List SessionRow) : List SessionRow :=
  rows.filter fun r => decide (first ≤ r.date ∧ r.date ≤ last)

/-- `total_km = df_month["distance_km"].sum()` (line 542). -/
def total_km (first last : ℤ) (rows : List SessionRow) : ℚ :=
  ((monthFilter first last rows).map (·.distance_km)).sum

/-- `total_min = df_month["time_min"].sum()` (line 543). -/
def total_min (first last : ℤ) (rows : List SessionRow) : ℚ :=
  ((monthFilter first last rows).map (·.time_min)).sum

/-- `total_kcal = df_month["calories"].sum()` (line 544). -/
def total_kcal (first last : ℤ) (rows : List SessionRow) : ℚ :=
  ((monthFilter first last rows).map (·.calories)).sum

/-- `avg_speed = total_km / (total_min / 60) if total_min else 0`
(line 545); Python truthiness of `total_min` is "nonzero". -/
def avg_speed (first last : ℤ) (rows : List SessionRow) : ℚ :=
  if total_min first last rows ≠ 0 then
    total_km first last rows / (total_min first last rows / 60)
  else 0

/-- `workout_days = df_month["date"].dt.date.nunique()` (line 546): the
number of distinct dates among the month's rows. -/
def workout_days (first last : ℤ) (rows : List SessionRow) : ℕ :=
  ((monthFilter first last rows).map (·.date)).dedup.length

/-- The number of rows of `df_month`: the month's session count. -/
def session_count (first last : ℤ) (rows : List SessionRow) : ℕ :=
  (monthFilter first last rows).length

/-- The rows of one activity group of
`df_month.groupby('activity')` (line 635). -/
def activityRows (first last : ℤ) (rows : List SessionRow) (act : String) : List SessionRow :=
  (monthFilter first last rows).filter fun r => decide (r.activity = act)

/-- `calories_per_hour` of the activity-comparison table (lines 642, 647–648):
`(calories_sum / (time_sum / 60)).round(1)`, with the subsequent
`replace([inf, -inf], 0).fillna(0)` turning every zero-denominator entry
(`x/0 = ±inf`, `0/0 = NaN` in pandas) into `0`. -/
def calories_per_hour (first last : ℤ) (rows : List SessionRow) (act : String) : ℚ :=
  let g := activityRows first last rows act
  let cal := (g.map (·.calories)).sum
  let tm := (g.map (·.time_min)).sum
  if tm = 0 then 0 else round1 (cal / (tm / 60))

/-- `avg_speed_kmh` of the activity-comparison table (lines 643, 647–648),
with the same zero-denominator replacement. -/
def avg_speed_kmh (first last : ℤ) (rows : List SessionRow) (act : String) : ℚ :=
  let g := activityRows first last rows act
  let dist := (g.map (·.distance_km)).sum
  let tm := (g.map (·.time_min)).sum
  if tm = 0 then 0 else round2 (dist / (tm / 60))

/-- `calories_per_km` of the activity-comparison table (lines 644, 647–648),
with the same zero-denominator replacement. -/
def calories_per_km (first last : ℤ) (rows : List SessionRow) (act : String) : ℚ :=
  let g := activityRows first last rows act
  let cal := (g.map (·.calories)).sum
  let dist := (g.map (·.distance_km)).sum
  if dist = 0 then 0 else round1 (cal / dist)

/-- Goal-completion fraction (line 558):
`percent = min(total_km / goal_km, 1.0) if goal_km > 0 else 0`. -/
def percent (total_km goal_km : ℚ) : ℚ :=
  if goal_km > 0 then min (total_km / goal_km) 1 else 0

/-- `current_bmi` (line 513):
`(current_weight * 0.453592) / (height_m ** 2) if current_weight > 0 else 0`
with `height_m = settings["height_cm"] / 100` (line 511). -/
def current_bmi (current_weight height_cm : ℚ) : ℚ :=
  if current_weight > 0 then (current_weight * 0.453592) / ((height_cm / 100) ^ 2) else 0

/-- The progress page's BMI display (lines 569–571): the "Target Weight &
BMI" block, and with it the BMI figure, is rendered only under
`if current_weight > 0`; otherwise nothing is shown. -/
def bmiDisplay (current_weight height_cm : ℚ) : Option ℚ :=
  if current_weight > 0 then some (current_bmi current_weight height_cm) else none

/-- `target_weight = TARGET_BMI * (height_m ** 2) / 0.453592` (line 514):
a function of `height_cm` (and the constant) only. -/
def target_weight (height_cm : ℚ) : ℚ :=
  TARGET_BMI * (height_cm / 100) ^ 2 / 0.453592

/-- Python's `date.weekday()` on day ordinals: Monday = 0 … Sunday = 6
(the ordinal epoch is chosen on a Monday). -/
def weekday (d : ℤ) : ℤ := d % 7

/-- `grid_start = first_day - timedelta(days=first_day.weekday())`
(line 378). -/
def grid_start (first_day : ℤ) : ℤ := first_day - weekday first_day

/-- `grid_end = last_day + timedelta(days=(6 - last_day.weekday()))`
(line 379). -/
def grid_end (last_day : ℤ) : ℤ := last_day + (6 - weekday last_day)

/-- `all_dates = [grid_start + timedelta(days=i) for i in
range((grid_end - grid_start).days + 1)]` (line 380). -/
def all_dates (first_day last_day : ℤ) : List ℤ :=
  (List.range ((grid_end last_day - grid_start first_day).toNat + 1)).map
    fun i : ℕ => grid_start first_day + (i : ℤ)

/-- `[xs[i:i + 7] for i in range(0, len(xs), 7)]` (line 381). -/
def toWeeks (xs : List ℤ) : List (List ℤ) :=
  if h : xs = [] then []
  else xs.take 7 :: toWeeks (xs.drop 7)
termination_by xs.length
decreasing_by
  simp only [List.length_drop]
  have : xs.length ≠ 0 := fun hl => h (List.length_eq_zero.mp hl)
  omega

/-- `weeks = [all_dates[i:i + 7] for i in range(0, len(all_dates), 7)]`
(line 381). -/
def weeks (first_day last_day : ℤ) : List (List ℤ) :=
  toWeeks (all_dates first_day last_day)

/-- Shared fact: an activity string matching none of the five named `elif`
branches resolves to the default MET `3.5`. -/
theorem MET_default (a : String) (i : Intensity)
    (h1 : a ≠ "Rollerblade") (h2 : a ≠ "Stationary Bike") (h3 : a ≠ "Basketball (21)")
    (h4 : a ≠ "Spikeball") (h5 : a ≠ "Soccer") : MET a i = 3.5 := by
  simp [MET, h1, h2, h3, h4, h5]

/-- Walk hits none of the `elif` branches, so its MET is the default `3.5`. -/
theorem MET_walk (i : Intensity) : MET "Walk" i = 3.5 := by
  simp [MET]

/-- Rollerblade resolves to MET `9.0`. -/
theorem MET_rollerblade (i : Intensity) : MET "Rollerblade" i = 9.0 := by
  simp [MET]

/-- Stationary Bike resolves to MET `7.5`. -/
theorem MET_stationary_bike (i : Intensity) : MET "Stationary Bike" i = 7.5 := by
  simp [MET]

/-- Evaluation rule for `round2`: if `n ≤ 100 x + 1/2 < n + 1` then
`round2 x = n / 100`. -/
theorem round2_eq_of_bounds (x : ℚ) (n : ℤ)
    (h1 : (n : ℚ) ≤ x * 100 + 1 / 2) (h2 : x * 100 + 1 / 2 < n + 1) :
    round2 x = (n : ℚ) / 100 := by
  unfold round2
  rw [round_eq, Int.floor_eq_iff.mpr ⟨h1, by exact_mod_cast h2⟩]

/-- C1: for the fixed-MET activities Walk (3.5), Rollerblade (9.0) and
Stationary Bike (7.5), with positive mass `w` (lb), positive duration `t`
(min) and vertical gain `v ≥ 0` (ft), the stored calories equal
`round(MET * (w * 0.453592) * (t / 60) + C, 2)` where `C` is the climb term
when `v > 0` and `0` otherwise; in particular Walk at 200 lb, 60 min, 0 ft
gives `317.51`. -/
theorem c1_calorie_formula (w t v : ℚ) (i : Intensity)
    (hw : 0 < w) (ht : 0 < t) (hv : 0 ≤ v) :
    (logCalories "Walk" i w t v =
      round2 (3.5 * (w * 0.453592) * (t / 60) +
        if 0 < v then ((w * 0.453592) * (v * 0.3048) * 9.81) / 0.25 / 4184 else 0)) ∧
    (logCalories "Rollerblade" i w t v =
      round2 (9.0 * (w * 0.453592) * (t / 60) +
        if 0 < v then ((w * 0.453592) * (v * 0.3048) * 9.81) / 0.25 / 4184 else 0)) ∧
    (logCalories "Stationary Bike" i w t v =
      round2 (7.5 * (w * 0.453592) * (t / 60) +
        if 0 < v then ((w * 0.453592) * (v * 0.3048) * 9.81) / 0.25 / 4184 else 0)) ∧
    logCalories "Walk" .low 200 60 0 = 317.51 := by
  have hcl : ∀ a : ℚ, (if v ≠ 0 then a else 0) = (if 0 < v then a else 0) := by
    intro a
    rcases hv.eq_or_lt with h | h
    · simp [← h]
    · simp [h.ne', h]
  have hconc : logCalories "Walk" .low 200 60 0 = 317.51 := by
    have harg : logCalories "Walk" .low 200 60 0 = round2 317.5144 := by
      simp only [logCalories, MET_walk]
      norm_num
    rw [harg, round2_eq_of_bounds 317.5144 31751 (by norm_num) (by norm_num)]
    norm_num
  refine ⟨?_, ?_, ?_, hconc⟩
  · simp only [logCalories, MET_walk]
    rw [hcl]
  · simp only [logCalories, MET_rollerblade]
    rw [hcl]
  · simp only [logCalories, MET_stationary_bike]
    rw [hcl]

/-- C1 witness: the hypotheses of `c1_calorie_formula` hold at
`w = 200`, `t = 60`, `v = 0`. -/
theorem c1_calorie_formula_witness :
    ((0 : ℚ) < 200 ∧ (0 : ℚ) < 60 ∧ (0 : ℚ) ≤ 0) ∧
    logCalories "Walk" .low 200 60 0 = 317.51 :=
  ⟨⟨by norm_num, by norm_num, le_refl 0⟩,
    (c1_calorie_formula 200 60 0 .low (by norm_num) (by norm_num) (le_refl 0)).2.2.2⟩

/-- C2 counterexample: the log form does not reject an activity string
outside the enumerated set — it silently resolves MET to the default `3.5`
and hands a fully computed row to `save_data`. Here the unknown activity
"Jogging" with weight 200, time 60 is persisted with Walk's calories. -/
theorem c2_counterexample :
    MET "Jogging" .low = 3.5 ∧
    logSubmit 0 0 "Jogging" .low (some 200) (some 60) none none false "u" =
      some { date := 0, weight_lbs := 200, time_min := 60, distance_km := 0,
             vertical_feet := 0, calories := 317.51, activity := "Jogging", user := "u" } := by
  have hmet : MET "Jogging" Intensity.low = 3.5 := by simp [MET]
  have hcal : logCalories "Jogging" Intensity.low 200 60 0 = 317.51 := by
    have harg : logCalories "Jogging" Intensity.low 200 60 0 = round2 317.5144 := by
      simp only [logCalories, hmet]
      norm_num
    rw [harg, round2_eq_of_bounds 317.5144 31751 (by norm_num) (by norm_num)]
    norm_num
  refine ⟨hmet, ?_⟩
  simp only [logSubmit, Option.getD]
  norm_num [hcal]

/-- C2 amended: for every activity string outside the six enumerated
activities, the MET resolution falls back to the default `3.5` (Walk's
value) and the computed calories coincide with those of a Walk session with
the same inputs; no validation error is raised and a session is persisted
(the UI's selectbox is the only thing restricting activities to the
enumerated set). -/
theorem c2_unknown_activity_default_met (a : String) (i : Intensity)
    (h : a ∉ activityOptions) :
    MET a i = 3.5 ∧ ∀ w t v : ℚ, logCalories a i w t v = logCalories "Walk" i w t v := by
  simp only [activityOptions, List.mem_cons, List.not_mem_nil, or_false, not_or] at h
  obtain ⟨-, h1, h2, h3, h4, h5⟩ := h
  have hm : MET a i = 3.5 := MET_default a i h1 h2 h3 h4 h5
  have hw : MET "Walk" i = 3.5 :=
    MET_default _ i (by decide) (by decide) (by decide) (by decide) (by decide)
  exact ⟨hm, fun w t v => by simp only [logCalories, hm, hw]⟩

/-- C2 witness: the amended statement at the concrete unknown activity
"Jogging". -/
theorem c2_unknown_activity_default_met_witness :
    "Jogging" ∉ activityOptions ∧
    (MET "Jogging" .low = 3.5 ∧
      ∀ w t v : ℚ, logCalories "Jogging" .low w t v = logCalories "Walk" .low w t v) :=
  ⟨by decide, c2_unknown_activity_default_met "Jogging" .low (by decide)⟩

/-- C6: goal completion is `min(total / goal, 1)` when the goal is positive
and `0` otherwise; `50` of `100` gives `0.5`, `150` of `100` caps at `1`. -/
theorem c6_goal_percent :
    (∀ total goal : ℚ, 0 < goal → percent total goal = min (total / goal) 1) ∧
    (∀ total goal : ℚ, goal ≤ 0 → percent total goal = 0) ∧
    percent 50 100 = 0.5 ∧ percent 150 100 = 1 := by
  refine ⟨fun total goal h => ?_, fun total goal h => ?_,
    by norm_num [percent, min_def], by norm_num [percent, min_def]⟩
  · simp [percent, h]
  · simp [percent, not_lt.mpr h]

/-- C6 witness: the quantified parts of `c6_goal_percent` at the concrete
inputs `(50, 100)` and `(150, -1)`. -/
theorem c6_goal_percent_witness :
    ((0 : ℚ) < 100 ∧ percent 50 100 = min (50 / 100) 1) ∧
    ((-1 : ℚ) ≤ 0 ∧ percent 150 (-1) = 0) :=
  ⟨⟨by norm_num, c6_goal_percent.1 50 100 (by norm_num)⟩,
    ⟨by norm_num, c6_goal_percent.2.1 150 (-1) (by norm_num)⟩⟩

/-- C7: BMI is `(w_lb * 0.453592) / (height_cm / 100)^2`, shown only when the
current weight is positive; when it is not (e.g. no logged sessions, where
the page uses `0`), the progress page renders no BMI at all — the result is
unavailable, not the number `0`. -/
theorem c7_bmi (w h : ℚ) :
    (0 < w → bmiDisplay w h = some ((w * 0.453592) / ((h / 100) ^ 2)) ∧
      current_bmi w h = (w * 0.453592) / ((h / 100) ^ 2)) ∧
    (w ≤ 0 → bmiDisplay w h = none) := by
  constructor
  · intro hw
    constructor
    · simp [bmiDisplay, current_bmi, hw]
    · simp [current_bmi, hw]
  · intro hw
    simp [bmiDisplay, not_lt.mpr hw]

/-- C7 witness: `c7_bmi` at weight `200`, height `175` (BMI shown) and at
weight `0` (BMI unavailable). -/
theorem c7_bmi_witness :
    ((0 : ℚ) < 200 ∧ bmiDisplay 200 175 = some ((200 * 0.453592) / ((175 / 100) ^ 2)) ∧
      current_bmi 200 175 = (200 * 0.453592) / ((175 / 100) ^ 2)) ∧
    ((0 : ℚ) ≤ 0 ∧ bmiDisplay 0 175 = none) :=
  ⟨⟨by norm_num, (c7_bmi 200 175).1 (by norm_num)⟩,
    ⟨le_refl 0, (c7_bmi 0 175).2 (le_refl 0)⟩⟩

/-- C8 counterexample: at `height_cm = 175` the code's target weight is
`24.9 * 1.75^2 / 0.453592 = 168.116…`, which is not approximately `167.9`
(it differs by more than `0.2`); the claim's example value is wrong. -/
theorem c8_counterexample :
    target_weight 175 ≠ 167.9 ∧
    1 / 5 < target_weight 175 - 167.9 ∧
    168.11 < target_weight 175 ∧ target_weight 175 < 168.12 := by
  refine ⟨by norm_num [target_weight, TARGET_BMI], by norm_num [target_weight, TARGET_BMI],
    by norm_num [target_weight, TARGET_BMI], by norm_num [target_weight, TARGET_BMI]⟩

/-- C8 amended: the target weight is `(24.9 * (height_cm/100)^2) / 0.453592`,
a function of height and the constant only (current weight and session data
are not inputs); converting the target weight back to kilograms and dividing
by the squared height recovers exactly `TARGET_BMI`; and `height_cm = 175`
yields approximately `168.12` lb (not `167.9`). -/
theorem c8_target_weight (h : ℚ) (hh : h ≠ 0) :
    target_weight h = TARGET_BMI * (h / 100) ^ 2 / 0.453592 ∧
    (target_weight h * 0.453592) / ((h / 100) ^ 2) = TARGET_BMI ∧
    round2 (target_weight 175) = 168.12 ∧
    168.11 < target_weight 175 ∧ target_weight 175 < 168.12 := by
  have h2 : ((h : ℚ) / 100) ^ 2 ≠ 0 := pow_ne_zero _ (div_ne_zero hh (by norm_num))
  have htw : target_weight 175 = 38128125 / 226796 := by
    norm_num [target_weight, TARGET_BMI]
  have hround : round2 (target_weight 175) = 168.12 := by
    rw [htw, round2_eq_of_bounds (38128125 / 226796) 16812 (by norm_num) (by norm_num)]
    norm_num
  refine ⟨rfl, ?_, hround, by norm_num [target_weight, TARGET_BMI],
    by norm_num [target_weight, TARGET_BMI]⟩
  rw [target_weight]
  field_simp
  ring

/-- C8 witness: `c8_target_weight` at the concrete height `175`. -/
theorem c8_target_weight_witness :
    (175 : ℚ) ≠ 0 ∧
    (target_weight 175 * 0.453592) / ((175 / 100 : ℚ) ^ 2) = TARGET_BMI :=
  ⟨by norm_num, (c8_target_weight 175 (by norm_num)).2.1⟩

/-- C3: when the previous-period value is `0` both comparators yield the
explicit empty result (no comparison; not an error and not a delta equal to
the raw current value); otherwise `raw_delta` reports `delta = current -
previous` with direction up/down/flat by its sign, and `percent_delta`
reports `delta_pct = (delta / previous) * 100` with the same directions
(for positive previous values, i.e. actual metric baselines, the sign of
`delta_pct` is the sign of `delta`). -/
theorem c3_period_comparator (c p : ℚ) :
    (p = 0 → raw_delta c p = .empty ∧ percent_delta c p = .empty) ∧
    (p ≠ 0 → raw_delta c p =
      if 0 < c - p then .up (c - p)
      else if c - p < 0 then .down (c - p)
      else .flat) ∧
    (0 < p → percent_delta c p =
      if 0 < c - p then .up ((c - p) / p * 100)
      else if c - p < 0 then .down ((c - p) / p * 100)
      else .flat) := by
  refine ⟨fun h => ⟨by simp [raw_delta, h], by simp [percent_delta, h]⟩, fun h => ?_, fun hp => ?_⟩
  · rw [raw_delta, if_neg h]
    rcases lt_trichotomy (c - p) 0 with hlt | heq | hgt
    · simp [hlt.ne, not_lt.mpr hlt.le, hlt]
    · simp [heq]
    · simp [hgt.ne', hgt, not_lt.mpr hgt.le]
  · rw [percent_delta, if_neg hp.ne']
    rcases lt_trichotomy (c - p) 0 with hlt | heq | hgt
    · have hq : (c - p) / p * 100 < 0 :=
        mul_neg_of_neg_of_pos (div_neg_of_neg_of_pos hlt hp) (by norm_num)
      simp [hq.ne, not_lt.mpr hq.le, hq, hlt.ne, not_lt.mpr hlt.le, hlt]
    · simp [heq]
    · have hq : 0 < (c - p) / p * 100 := mul_pos (div_pos hgt hp) (by norm_num)
      simp [hq.ne', hq, hgt.ne', hgt, not_lt.mpr hgt.le]

/-- C3 witness: `c3_period_comparator` at `(current, previous) = (10, 0)`
(no comparison available) and `(10, 5)` (delta `5`, up; percentage `100`). -/
theorem c3_period_comparator_witness :
    ((0 : ℚ) = 0 ∧ raw_delta 10 0 = .empty ∧ percent_delta 10 0 = .empty) ∧
    ((5 : ℚ) ≠ 0 ∧ raw_delta 10 5 =
      (if 0 < (10 : ℚ) - 5 then .up ((10 : ℚ) - 5)
       else if (10 : ℚ) - 5 < 0 then .down ((10 : ℚ) - 5) else .flat)) :=
  ⟨⟨rfl, (c3_period_comparator 10 0).1 rfl⟩,
    ⟨by norm_num, (c3_period_comparator 10 5).2.1 (by norm_num)⟩⟩

/-- C4: the division-shaped monthly aggregates have explicit zero fallbacks:
`avg_speed` is `total_km / (total_min / 60)` exactly when the month's
duration sum is positive and `0` otherwise (given the duration sum is
non-negative, as it is for real sessions), and the per-activity
calories/hour, speed and calories/km entries are `0` whenever their
denominator (time sum, resp. distance sum) is `0`; none of them is a
division error. -/
theorem c4_division_guards (first last : ℤ) (rows : List SessionRow) (act : String)
    (h : 0 ≤ total_min first last rows) :
    (avg_speed first last rows =
      if 0 < total_min first last rows then
        total_km first last rows / (total_min first last rows / 60)
      else 0) ∧
    (((activityRows first last rows act).map (·.time_min)).sum = 0 →
      calories_per_hour first last rows act = 0 ∧
      avg_speed_kmh first last rows act = 0) ∧
    (((activityRows first last rows act).map (·.distance_km)).sum = 0 →
      calories_per_km first last rows act = 0) := by
  refine ⟨?_, fun ht => ⟨?_, ?_⟩, fun hd => ?_⟩
  · rcases h.eq_or_lt with h0 | h0
    · rw [avg_speed, if_neg (by rw [← h0]; simp), if_neg (by rw [← h0]; simp)]
    · rw [avg_speed, if_pos h0.ne', if_pos h0]
  · simp [calories_per_hour, ht]
  · simp [avg_speed_kmh, ht]
  · simp [calories_per_km, hd]

/-- C4 witness: `c4_division_guards` on the empty session collection, whose
duration and distance sums are `0`, so every guarded aggregate is `0`. -/
theorem c4_division_guards_witness :
    (0 ≤ total_min 0 30 [] ∧ avg_speed 0 30 [] =
      if 0 < total_min 0 30 [] then total_km 0 30 [] / (total_min 0 30 [] / 60) else 0) ∧
    (((activityRows 0 30 [] "Walk").map (·.time_min)).sum = 0 ∧
      calories_per_hour 0 30 [] "Walk" = 0) :=
  ⟨⟨le_refl 0, (c4_division_guards 0 30 [] "Walk" (le_refl 0)).1⟩,
    ⟨rfl, ((c4_division_guards 0 30 [] "Walk" (le_refl 0)).2.1 rfl).1⟩⟩

/-- C5: `workout_days` counts distinct calendar dates of the month's
sessions (the cardinality of the set of dates), never exceeds the session
count, and two sessions on the same in-month date yield
`workout_days = 1` while `session_count = 2`. -/
theorem c5_active_days (first last : ℤ) (rows : List SessionRow) (r1 r2 : SessionRow)
    (hd : r1.date = r2.date) (h1 : first ≤ r1.date) (h1' : r1.date ≤ last) :
    workout_days first last rows = ((monthFilter first last rows).map (·.date)).toFinset.card ∧
    workout_days first last rows ≤ session_count first last rows ∧
    workout_days first last [r1, r2] = 1 ∧
    session_count first last [r1, r2] = 2 := by
  have hmf : monthFilter first last [r1, r2] = [r1, r2] := by
    simp [monthFilter, List.filter, h1, h1', hd ▸ h1, hd ▸ h1']
  refine ⟨(List.card_toFinset _).symm, ?_, ?_, ?_⟩
  · calc workout_days first last rows
        ≤ ((monthFilter first last rows).map (·.date)).length :=
          (List.dedup_sublist _).length_le
      _ = session_count first last rows := List.length_map _ _
  · rw [workout_days, hmf]
    show ([r1.date, r2.date] : List ℤ).dedup.length = 1
    rw [hd, List.dedup_cons_of_mem (List.mem_singleton.mpr rfl)]
    simp
  · rw [session_count, hmf]
    rfl

/-- C5 witness: two concrete sessions on the same date `5` inside the month
range `[0, 30]`. -/
theorem c5_active_days_witness :
    ((⟨5, 200, 60, 5, 0, 317.51, "Walk", "u"⟩ : SessionRow).date =
      (⟨5, 180, 30, 3, 0, 150, "Rollerblade", "u"⟩ : SessionRow).date ∧
      (0 : ℤ) ≤ 5 ∧ (5 : ℤ) ≤ 30) ∧
    workout_days 0 30 [⟨5, 200, 60, 5, 0, 317.51, "Walk", "u"⟩,
      ⟨5, 180, 30, 3, 0, 150, "Rollerblade", "u"⟩] = 1 ∧
    session_count 0 30 [⟨5, 200, 60, 5, 0, 317.51, "Walk", "u"⟩,
      ⟨5, 180, 30, 3, 0, 150, "Rollerblade", "u"⟩] = 2 :=
  ⟨⟨rfl, by norm_num, by norm_num⟩,
    (c5_active_days 0 30 [] ⟨5, 200, 60, 5, 0, 317.51, "Walk", "u"⟩
      ⟨5, 180, 30, 3, 0, 150, "Rollerblade", "u"⟩ rfl (by norm_num) (by norm_num)).2.2.1,
    (c5_active_days 0 30 [] ⟨5, 200, 60, 5, 0, 317.51, "Walk", "u"⟩
      ⟨5, 180, 30, 3, 0, 150, "Rollerblade", "u"⟩ rfl (by norm_num) (by norm_num)).2.2.2⟩

/-- C9: a logging attempt dated strictly after the current date is rejected
(the submit handler returns nothing, before any calorie computation or
persistence), and every row the handler does produce — the only rows ever
appended to the store — carries a date not after the logging-time current
date. -/
theorem c9_future_date (today date : ℤ) (activity : String) (i : Intensity)
    (w t d v : Option ℚ) (um : Bool) (u : String) :
    (today < date → logSubmit today date activity i w t d v um u = none) ∧
    (∀ row : SessionRow, logSubmit today date activity i w t d v um u = some row →
      row.date ≤ today) := by
  constructor
  · intro h
    rcases w with _ | wv <;> rcases t with _ | tv <;> simp [logSubmit, h]
  · intro row hrow
    rcases w with _ | wv <;> rcases t with _ | tv
    · have hrow' : (if today < date then (none : Option SessionRow) else none) = some row := hrow
      rw [ite_self] at hrow'
      exact absurd hrow' (by simp)
    · have hrow' : (if today < date then (none : Option SessionRow) else none) = some row := hrow
      rw [ite_self] at hrow'
      exact absurd hrow' (by simp)
    · have hrow' : (if today < date then (none : Option SessionRow) else none) = some row := hrow
      rw [ite_self] at hrow'
      exact absurd hrow' (by simp)
    · have hrow' :
          (if today < date then (none : Option SessionRow)
           else some ({ date := date, weight_lbs := wv, time_min := tv,
                        distance_km := (if um then (d.getD 0) * 1.60934 else d.getD 0),
                        vertical_feet := v.getD 0,
                        calories := logCalories activity i wv tv (v.getD 0),
                        activity := activity, user := u } : SessionRow)) = some row := hrow
      by_cases h : today < date
      · rw [if_pos h] at hrow'
        exact absurd hrow' (by simp)
      · rw [if_neg h] at hrow'
        simp only [Option.some.injEq] at hrow'
        rw [← hrow']
        exact not_lt.mp h

/-- C9 witness: a session dated `10` logged on day `5` is rejected. -/
theorem c9_future_date_witness :
    (5 : ℤ) < 10 ∧
    logSubmit 5 10 "Walk" .low (some 200) (some 60) none none false "u" = none :=
  ⟨by norm_num,
    (c9_future_date 5 10 "Walk" .low (some 200) (some 60) none none false "u").1 (by norm_num)⟩

/-- Chunking into weeks loses nothing: concatenating the rows of
`toWeeks xs` gives back `xs`. -/
theorem toWeeks_flatten (xs : List ℤ) : (toWeeks xs).flatten = xs := by
  induction xs using toWeeks.induct with
  | case1 =>
    rw [toWeeks]
    simp
  | case2 xs hne ih =>
    rw [toWeeks, dif_neg hne, List.flatten_cons, ih, List.take_append_drop]

/-- When the list's length is a multiple of `7`, every chunk produced by
`toWeeks` has length exactly `7`. -/
theorem toWeeks_length_mem (xs : List ℤ) (hdvd : 7 ∣ xs.length) :
    ∀ wk ∈ toWeeks xs, wk.length = 7 := by
  revert hdvd
  induction xs using toWeeks.induct with
  | case1 =>
    intro _ wk hwk
    rw [toWeeks] at hwk
    simp at hwk
  | case2 xs hne ih =>
    intro hdvd wk hwk
    have hlen0 : xs.length ≠ 0 := fun h0 => hne (List.length_eq_zero.mp h0)
    have h7 : 7 ≤ xs.length := by omega
    rw [toWeeks, dif_neg hne] at hwk
    rcases List.mem_cons.mp hwk with rfl | hwk'
    · rw [List.length_take]
      omega
    · exact ih (by rw [List.length_drop]; omega) wk hwk'

/-- C10: for any month — abstracted as the ordinal range
`[first_day, last_day]` of its dates — the calendar grid runs from the
Monday on or before the first of the month to the Sunday on or after its
last day; `all_dates` lists exactly the consecutive ordinals of that span,
its length is a multiple of `7`, the `weeks` rows partition it into rows of
exactly `7` days, and every date of the month occurs in the grid exactly
once. -/
theorem c10_calendar_grid (first_day last_day : ℤ) (hfl : first_day ≤ last_day) :
    (grid_start first_day ≤ first_day ∧ weekday (grid_start first_day) = 0 ∧
      first_day - grid_start first_day < 7) ∧
    (last_day ≤ grid_end last_day ∧ weekday (grid_end last_day) = 6 ∧
      grid_end last_day - last_day < 7) ∧
    (∀ i : ℕ, ∀ hi : i < (all_dates first_day last_day).length,
      (all_dates first_day last_day).get ⟨i, hi⟩ = grid_start first_day + (i : ℤ)) ∧
    (all_dates first_day last_day).length =
      (grid_end last_day - grid_start first_day).toNat + 1 ∧
    7 ∣ (all_dates first_day last_day).length ∧
    (∀ wk ∈ weeks first_day last_day, wk.length = 7) ∧
    (weeks first_day last_day).flatten = all_dates first_day last_day ∧
    (∀ d : ℤ, first_day ≤ d → d ≤ last_day → (all_dates first_day last_day).count d = 1) := by
  have hgs : grid_start first_day ≤ first_day ∧ weekday (grid_start first_day) = 0 ∧
      first_day - grid_start first_day < 7 := by
    unfold grid_start weekday
    omega
  have hge : last_day ≤ grid_end last_day ∧ weekday (grid_end last_day) = 6 ∧
      grid_end last_day - last_day < 7 := by
    unfold grid_end weekday
    omega
  have hlen : (all_dates first_day last_day).length =
      (grid_end last_day - grid_start first_day).toNat + 1 := by
    simp only [all_dates, List.length_map, List.length_range]
  have hdvd : 7 ∣ (all_dates first_day last_day).length := by
    rw [hlen]
    unfold grid_end grid_start weekday
    omega
  refine ⟨hgs, hge, ?_, hlen, hdvd, toWeeks_length_mem _ hdvd, toWeeks_flatten _, ?_⟩
  · intro i hi
    simp only [List.get_eq_getElem]
    simp only [all_dates, List.getElem_map, List.getElem_range]
  · intro d hd hd'
    have hnodup : (all_dates first_day last_day).Nodup := by
      rw [all_dates]
      apply List.Nodup.map
      · intro a b hab
        simp only [add_right_inj] at hab
        exact_mod_cast hab
      · exact List.nodup_range _
    have hmem : d ∈ all_dates first_day last_day := by
      rw [all_dates]
      refine List.mem_map.mpr ⟨(d - grid_start first_day).toNat, List.mem_range.mpr ?_, ?_⟩
      · have h1 := hgs.1
        have h2 := hge.1
        omega
      · have h1 := hgs.1
        omega
    exact List.count_eq_one_of_mem hnodup hmem

/-- C10 witness: the month whose dates have ordinals `10` through `39`
(a 30-day month starting on a Thursday); the date `15` of that month
appears in its grid exactly once. -/
theorem c10_calendar_grid_witness :
    ((10 : ℤ) ≤ 39 ∧ (10 : ℤ) ≤ 15 ∧ (15 : ℤ) ≤ 39) ∧
    (all_dates 10 39).count 15 = 1 :=
  ⟨⟨by norm_num, by norm_num, by norm_num⟩,
    (c10_calendar_grid 10 39 (by norm_num)).2.2.2.2.2.2.2 15 (by norm_num) (by norm_num)⟩

end WorkoutApp
